import Mathlib

/-!
Verification of the interactive threshold-segmentation and transfer-function
engine of `DICOM3DSegmentacion.py`.

The embedding models scalar intensities as rationals and a 3D volume as the
flat list of its voxel intensities (the code itself flattens with `ravel()`
for every statistic it computes; spatial layout never enters the claims
below).  The VTK transfer-function objects `vtkPiecewiseFunction` and
`vtkColorTransferFunction` are modelled as association lists of nodes kept
sorted by intensity, with `AddPoint`/`AddRGBPoint` inserting a node or
replacing the node already present at the same intensity, exactly as VTK
does.
-/

namespace DICOM3D

/-- A transfer-function node list: pairs of (intensity, value), kept sorted
by strictly increasing intensity.  `α` is `ℚ` for opacity nodes and
`ℚ × ℚ × ℚ` for RGB colour nodes. -/
def Nodes (α : Type) : Type := List (ℚ × α)

/-- VTK `AddPoint` / `AddRGBPoint`: insert a node at intensity `x`, replacing
the existing node if one is already registered at exactly `x` (VTK keeps one
node per intensity and keeps the node set sorted). -/
def addNode {α : Type} : List (ℚ × α) → ℚ → α → List (ℚ × α)
  | [], x, y => [(x, y)]
  | (a, b) :: rest, x, y =>
    if x < a then (x, y) :: (a, b) :: rest
    else if x = a then (x, y) :: rest
    else (a, b) :: addNode rest x y

/-- Look up the node registered at intensity `x`, if any. -/
def lookupNode {α : Type} : List (ℚ × α) → ℚ → Option α
  | [], _ => none
  | (a, b) :: rest, x => if x = a then some b else lookupNode rest x

/-- The node intensities are strictly increasing along the list. -/
abbrev nodesSorted {α : Type} (l : List (ℚ × α)) : Prop :=
  l.Pairwise (fun p q => p.1 < q.1)

theorem mem_addNode {α : Type} {l : List (ℚ × α)} {x : ℚ} {y : α}
    {q : ℚ × α} (h : q ∈ addNode l x y) : q = (x, y) ∨ q ∈ l := by
  induction l with
  | nil =>
    simp only [addNode, List.mem_singleton] at h
    exact Or.inl h
  | cons hd tl ih =>
    obtain ⟨a, b⟩ := hd
    by_cases h1 : x < a
    · simp only [addNode, if_pos h1, List.mem_cons] at h
      rcases h with h | h | h
      · exact Or.inl h
      · exact Or.inr (List.mem_cons.2 (Or.inl h))
      · exact Or.inr (List.mem_cons.2 (Or.inr h))
    · by_cases h2 : x = a
      · simp only [addNode, if_neg h1, if_pos h2, List.mem_cons] at h
        rcases h with h | h
        · exact Or.inl h
        · exact Or.inr (List.mem_cons.2 (Or.inr h))
      · simp only [addNode, if_neg h1, if_neg h2, List.mem_cons] at h
        rcases h with h | h
        · exact Or.inr (List.mem_cons.2 (Or.inl h))
        · rcases ih h with h | h
          · exact Or.inl h
          · exact Or.inr (List.mem_cons.2 (Or.inr h))

/-- `AddPoint` keeps the node list strictly sorted by intensity. -/
theorem addNode_sorted {α : Type} {l : List (ℚ × α)} (x : ℚ) (y : α)
    (h : nodesSorted l) : nodesSorted (addNode l x y) := by
  induction l with
  | nil => simp [addNode, nodesSorted]
  | cons hd tl ih =>
    obtain ⟨a, b⟩ := hd
    obtain ⟨ha, htl⟩ := List.pairwise_cons.mp h
    by_cases h1 : x < a
    · simp only [addNode, if_pos h1]
      refine List.Pairwise.cons ?_ (List.Pairwise.cons ha htl)
      intro q hq
      rcases List.mem_cons.1 hq with rfl | hq
      · exact h1
      · exact lt_trans h1 (ha q hq)
    · by_cases h2 : x = a
      · subst h2
        simp only [addNode, if_neg h1, if_pos rfl]
        exact List.Pairwise.cons ha htl
      · simp only [addNode, if_neg h1, if_neg h2]
        refine List.Pairwise.cons ?_ (ih htl)
        intro q hq
        rcases mem_addNode hq with rfl | hq
        · exact lt_of_le_of_ne (le_of_not_lt h1) (Ne.symm h2)
        · exact ha q hq

theorem lookupNode_addNode {α : Type} (l : List (ℚ × α)) (x z : ℚ) (y : α) :
    lookupNode (addNode l x y) z = if z = x then some y else lookupNode l z := by
  induction l with
  | nil =>
    simp [addNode, lookupNode]
  | cons hd tl ih =>
    obtain ⟨a, b⟩ := hd
    by_cases h1 : x < a
    · simp [addNode, if_pos h1, lookupNode]
    · by_cases h2 : x = a
      · subst h2
        by_cases hz : z = x
        · subst hz; simp [addNode, if_neg h1, lookupNode]
        · simp [addNode, if_neg h1, lookupNode, hz]
      · by_cases hz : z = a
        · subst hz
          have hzx : z ≠ x := fun h => h2 h.symm
          simp [addNode, if_neg h1, if_neg h2, lookupNode, hzx]
        · simp [addNode, if_neg h1, if_neg h2, lookupNode, hz, ih]

theorem lookupNode_mem {α : Type} {l : List (ℚ × α)} {x : ℚ} {y : α}
    (h : lookupNode l x = some y) : (x, y) ∈ l := by
  induction l with
  | nil => simp [lookupNode] at h
  | cons hd tl ih =>
    obtain ⟨a, b⟩ := hd
    by_cases hx : x = a
    · subst hx
      simp only [lookupNode, if_true, eq_self_iff_true, Option.some.injEq] at h
      subst h
      exact List.mem_cons_self _ _
    · simp only [lookupNode, if_neg hx] at h
      exact List.mem_cons.2 (Or.inr (ih h))

/-- VTK `vtkPiecewiseFunction.GetValue`: clamp to the first/last node value
outside the node range, linear interpolation between consecutive nodes. -/
def evalPiecewise : List (ℚ × ℚ) → ℚ → ℚ
  | [], _ => 0
  | (a, b) :: rest, x =>
    if x ≤ a then b
    else
      match rest with
      | [] => b
      | (c, d) :: _ =>
        if x ≤ c then b + (d - b) * (x - a) / (c - a)
        else evalPiecewise rest x

/-- A piecewise-linear transfer function evaluates to exactly the registered
value at each of its own nodes. -/
theorem evalPiecewise_at_node {l : List (ℚ × ℚ)} {x y : ℚ}
    (hs : nodesSorted l) (hl : lookupNode l x = some y) :
    evalPiecewise l x = y := by
  induction l with
  | nil => simp [lookupNode] at hl
  | cons hd tl ih =>
    obtain ⟨a, b⟩ := hd
    obtain ⟨ha, htl⟩ := List.pairwise_cons.mp hs
    by_cases hx : x = a
    · subst hx
      simp only [lookupNode, if_true, eq_self_iff_true, Option.some.injEq] at hl
      subst hl
      simp [evalPiecewise]
    · simp only [lookupNode, if_neg hx] at hl
      have hmem : (x, y) ∈ tl := lookupNode_mem hl
      have hax : a < x := ha (x, y) hmem
      have hnle : ¬x ≤ a := not_le.2 hax
      cases tl with
      | nil => simp [lookupNode] at hl
      | cons hd2 tl2 =>
        obtain ⟨c, d⟩ := hd2
        have hac : a < c := ha (c, d) (List.mem_cons_self _ _)
        obtain ⟨hc, htl2⟩ := List.pairwise_cons.mp htl
        by_cases hxc : x ≤ c
        · have hxc2 : x = c := by
            rcases List.mem_cons.1 hmem with h | h
            · exact congrArg Prod.fst h
            · exact absurd hxc (not_le.2 (hc (x, y) h))
          subst hxc2
          have hyd : y = d := by
            simp only [lookupNode, if_true, eq_self_iff_true, Option.some.injEq] at hl
            exact hl.symm
          subst hyd
          simp only [evalPiecewise, if_neg hnle, if_pos le_rfl]
          have hca : x - a ≠ 0 := sub_ne_zero.2 (ne_of_gt hax)
          field_simp
        · have hstep : evalPiecewise ((a, b) :: (c, d) :: tl2) x =
              evalPiecewise ((c, d) :: tl2) x := by
            simp only [evalPiecewise, if_neg hnle, if_neg hxc]
          rw [hstep]
          exact ih (List.Pairwise.cons hc htl2) hl

/-- State of the pair of VTK transfer functions
(`self.opacity_transfer`, `self.color_transfer`). -/
structure TransferState where
  opacity : List (ℚ × ℚ)
  color : List (ℚ × (ℚ × ℚ × ℚ))
  deriving DecidableEq

/-- Register a sequence of control points in order (one `AddPoint` call per
list element). -/
def addNodes {α : Type} (l : List (ℚ × α)) (ps : List (ℚ × α)) :
    List (ℚ × α) :=
  ps.foldl (fun acc p => addNode acc p.1 p.2) l

theorem addNodes_sorted {α : Type} (ps : List (ℚ × α)) {l : List (ℚ × α)}
    (h : nodesSorted l) : nodesSorted (addNodes l ps) := by
  induction ps generalizing l with
  | nil => exact h
  | cons p ps ih =>
    simpa [addNodes] using ih (addNode_sorted p.1 p.2 h)

/-- Opacity node list built by `_update_threshold_transfer`
(`DICOM3DSegmentacion.py` lines 589-600): the function starts from an
empty node set (`RemoveAllPoints`) and adds, in source order, the points
(data_min, 0), (lower-1, 0), (lower, 0.7), (midpoint, 0.9), (upper, 0.7),
(upper+1, 0), (data_max, 0). -/
def update_threshold_transfer_opacity (data_min data_max lower upper : ℚ) :
    List (ℚ × ℚ) :=
  addNodes []
    [(data_min, 0),
     (lower - 1, 0),
     (lower, 7/10),
     ((lower + upper) / 2, 9/10),
     (upper, 7/10),
     (upper + 1, 0),
     (data_max, 0)]

/-- Colour node list built by `_update_threshold_transfer`
(`DICOM3DSegmentacion.py` lines 602-618): black outside the band, then the
azure→cyan→green→yellow→red sweep at lower, lower+0.25·span, midpoint,
lower+0.75·span, upper. -/
def update_threshold_transfer_color (data_min data_max lower upper : ℚ) :
    List (ℚ × (ℚ × ℚ × ℚ)) :=
  addNodes []
    [(data_min, (0, 0, 0)),
     (lower - 1, (0, 0, 0)),
     (lower, (0, 0, 1)),
     (lower + (upper - lower) * (25/100), (0, 8/10, 1)),
     ((lower + upper) / 2, (0, 1, 0)),
     (lower + (upper - lower) * (75/100), (1, 1, 0)),
     (upper, (1, 0, 0)),
     (upper + 1, (0, 0, 0)),
     (data_max, (0, 0, 0))]

/-- `_update_threshold_transfer` (lines 580-618): `RemoveAllPoints` on both
transfer functions, then the node sets above are rebuilt from scratch as a
function of (data_min, data_max, lower, upper) only. -/
def update_threshold_transfer (_s : TransferState)
    (data_min data_max lower upper : ℚ) : TransferState :=
  { opacity := update_threshold_transfer_opacity data_min data_max lower upper
    color := update_threshold_transfer_color data_min data_max lower upper }

/-- Opacity node list built by `_update_multischeme_transfer`
(`DICOM3DSegmentacion.py` lines 1255-1271): tri-band ramp that never drops
to zero, added in source order. -/
def update_multischeme_transfer_opacity (data_min data_max lower upper : ℚ) :
    List (ℚ × ℚ) :=
  addNodes []
    [(data_min, 1/10),
     (lower - (lower - data_min) * (2/10), 2/10),
     (lower, 4/10),
     (lower + (upper - lower) * (3/10), 8/10),
     (lower + (upper - lower) * (7/10), 9/10),
     (upper, 7/10),
     (upper + (data_max - upper) * (2/10), 5/10),
     (data_max, 3/10)]

/-- Colour node list built by `_update_multischeme_transfer`
(`DICOM3DSegmentacion.py` lines 1273-1306): cold blues below lower, the
gray→orange medical gradient between the thresholds, hot reds/yellows above
upper, added in source order. -/
def update_multischeme_transfer_color (data_min data_max lower upper : ℚ) :
    List (ℚ × (ℚ × ℚ × ℚ)) :=
  addNodes []
    [(data_min, (0, 0, 3/10)),
     (data_min + (lower - data_min) * (3/10), (1/10, 1/10, 5/10)),
     (data_min + (lower - data_min) * (6/10), (2/10, 4/10, 8/10)),
     (lower, (4/10, 6/10, 1)),
     (lower + (upper - lower) * (1/10), (7/10, 7/10, 7/10)),
     (lower + (upper - lower) * (3/10), (9/10, 8/10, 6/10)),
     (lower + (upper - lower) * (5/10), (1, 7/10, 4/10)),
     (lower + (upper - lower) * (7/10), (1, 6/10, 2/10)),
     (upper, (1, 5/10, 1/10)),
     (upper + (data_max - upper) * (2/10), (1, 4/10, 0)),
     (upper + (data_max - upper) * (4/10), (1, 3/10, 0)),
     (upper + (data_max - upper) * (6/10), (1, 6/10, 2/10)),
     (upper + (data_max - upper) * (8/10), (1, 8/10, 4/10)),
     (data_max, (1, 1, 8/10))]

/-- `_update_multischeme_transfer` (lines 1246-1306): `RemoveAllPoints` on
both transfer functions, then the tri-band node sets are rebuilt from
scratch. -/
def update_multischeme_transfer (_s : TransferState)
    (data_min data_max lower upper : ℚ) : TransferState :=
  { opacity := update_multischeme_transfer_opacity data_min data_max lower upper
    color := update_multischeme_transfer_color data_min data_max lower upper }

/-- UI state of the interactive threshold window: the data range backing
both slider widgets (lines 484-490) and the two sliders committed/displayed
values, together with the pair of transfer functions. -/
structure ThresholdUI where
  data_min : ℚ
  data_max : ℚ
  lower_value : ℚ
  upper_value : ℚ
  transfer : TransferState
  deriving DecidableEq

/-- `_lower_threshold_callback` (lines 552-564): the user has dragged the
lower slider to `raw`; the callback reads the upper slider committed value,
clamps `raw` down to it when `raw > upper` (writing the clamped value back
into the slider widget with `SetValue`), and regenerates the transfer
functions with the clamped pair. -/
def lower_threshold_callback (ui : ThresholdUI) (raw : ℚ) : ThresholdUI :=
  let upper_value := ui.upper_value
  let value := if raw > upper_value then upper_value else raw
  { ui with
    lower_value := value
    transfer := update_threshold_transfer ui.transfer ui.data_min ui.data_max
      value upper_value }

/-- `_upper_threshold_callback` (lines 566-578): symmetric clamp of the
dragged upper-slider value up to the committed lower value. -/
def upper_threshold_callback (ui : ThresholdUI) (raw : ℚ) : ThresholdUI :=
  let lower_value := ui.lower_value
  let value := if raw < lower_value then lower_value else raw
  { ui with
    upper_value := value
    transfer := update_threshold_transfer ui.transfer ui.data_min ui.data_max
      lower_value value }

/-- Voxels strictly below the lower threshold:
`cold_region = (self.array < lower_threshold)` summed (line 1309). -/
def cold_region_count (array : List ℚ) (lower : ℚ) : ℕ :=
  array.countP (fun a => decide (a < lower))

/-- Voxels inside the inclusive band:
`medical_region = (self.array >= lower) & (self.array <= upper)` summed
(line 1310); the same mask is `mask` in `_update_threshold_transfer`
(line 621). -/
def medical_region_count (array : List ℚ) (lower upper : ℚ) : ℕ :=
  array.countP (fun a => decide (lower ≤ a) && decide (a ≤ upper))

/-- Voxels strictly above the upper threshold:
`hot_region = (self.array > upper_threshold)` summed (line 1311). -/
def hot_region_count (array : List ℚ) (upper : ℚ) : ℕ :=
  array.countP (fun a => decide (upper < a))

/-- `np.percentile(array, p)` with the default linear interpolation: sort
the data, take position `p/100 * (n-1)`, and linearly interpolate between
the two neighbouring order statistics. -/
def percentile (array : List ℚ) (p : ℚ) : ℚ :=
  let s := array.insertionSort (· ≤ ·)
  if s.length = 0 then 0
  else
    let pos : ℚ := p * ((s.length : ℚ) - 1) / 100
    let i : ℕ := (⌊pos⌋).toNat
    let lo := s.getD i 0
    let hi := s.getD (i + 1) lo
    lo + (pos - (⌊pos⌋ : ℚ)) * (hi - lo)

/-- `np.min` over a non-empty voxel list (0 for the empty list, which the
code never reaches because loading fails on zero slices). -/
def listMin (array : List ℚ) : ℚ :=
  match array with
  | [] => 0
  | a :: rest => rest.foldl min a

/-- `np.max` over a non-empty voxel list. -/
def listMax (array : List ℚ) : ℚ :=
  match array with
  | [] => 0
  | a :: rest => rest.foldl max a

/-- `volume_rendering_threshold_interactive` (lines 406-480), modelled up to
the construction of the interactive state: raises when no series is loaded
(`self.array is None`), otherwise computes the 30th/90th percentile initial
thresholds, creates both sliders over [data_min, data_max] at those initial
values (`_create_threshold_sliders`), and fills the fresh transfer functions
via `_update_threshold_transfer`.  There is no zero-variance check anywhere
on this path. -/
def volume_rendering_threshold_interactive (array : Option (List ℚ)) :
    Except String ThresholdUI :=
  match array with
  | none => .error "Primero debe cargar la serie DICOM"
  | some vol =>
    let initial_lower := percentile vol 30
    let initial_upper := percentile vol 90
    let data_min := listMin vol
    let data_max := listMax vol
    .ok
      { data_min := data_min
        data_max := data_max
        lower_value := initial_lower
        upper_value := initial_upper
        transfer := update_threshold_transfer ⟨[], []⟩ data_min data_max
          initial_lower initial_upper }

/-- `volume_rendering_multiple_schemes_interactive` (lines 1065-1146),
modelled up to the construction of the interactive state: 25th/75th
percentile initial thresholds, sliders over [data_min, data_max], transfer
functions filled via `_update_multischeme_transfer`. -/
def volume_rendering_multiple_schemes_interactive (array : Option (List ℚ)) :
    Except String ThresholdUI :=
  match array with
  | none => .error "Primero debe cargar la serie DICOM"
  | some vol =>
    let initial_lower := percentile vol 25
    let initial_upper := percentile vol 75
    let data_min := listMin vol
    let data_max := listMax vol
    .ok
      { data_min := data_min
        data_max := data_max
        lower_value := initial_lower
        upper_value := initial_upper
        transfer := update_multischeme_transfer ⟨[], []⟩ data_min data_max
          initial_lower initial_upper }

/-- `surface_rendering_double_threshold` (lines 1326-1359) with both
thresholds supplied by the caller (the `None` path prompts on stdin and is
outside this embedding); returns the threshold pair actually used for the
marching-cubes contours: when `lower_threshold >= upper_threshold` both
given values are discarded for the 40th and 80th percentiles, with no
re-check afterwards. -/
def surface_rendering_double_threshold (array : List ℚ)
    (lower_threshold upper_threshold : ℚ) : ℚ × ℚ :=
  if lower_threshold ≥ upper_threshold then
    (percentile array 40, percentile array 80)
  else
    (lower_threshold, upper_threshold)

/-- `_load_slices_manual` (lines 77-113): iterate over the ordered file
list; the file at index 0 is skipped unconditionally (`if i == 0: continue`,
study metadata), every other file is read, a failed read is skipped with a
message (`except ... continue`), and if nothing was stacked a `ValueError`
is raised.  A file is `some slice` when `itk.imread` succeeds and `none`
when it raises; the pixel payload `α` is opaque here.  The reported count
(line 110) is the length of the stacked list. -/
def load_slices_manual {α : Type} (dicom_files : List (Option α)) :
    Except String (List α) :=
  let slices := (dicom_files.drop 1).filterMap id
  if slices.isEmpty then .error "No se pudo cargar ningun slice"
  else .ok slices

/-- `segment_by_otsu` (lines 635-668).  The statement
`from skimage.filters import threshold_otsu` is executed BEFORE the
`try:` block, so when scikit-image is missing the `ImportError` propagates
out of the method; the `except ImportError` branch that would return
`(None, None, None)` guards only the body below the import and is
unreachable for a missing library.  The external Otsu computation is the
opaque parameter `threshold_otsu`. -/
def segment_by_otsu (skimage_available : Bool)
    (threshold_otsu : List ℚ → ℚ) (array : List ℚ) :
    Except String (Option (List ℚ × ℚ × List Bool)) :=
  if skimage_available = false then
    .error "ImportError: No module named skimage"
  else
    let t := threshold_otsu array
    let mask := array.map (fun a => decide (t < a))
    let background := listMin array
    let segmented := array.map (fun a => if t < a then a else background)
    .ok (some (segmented, t, mask))

/-- Index of the brightest cluster: `np.argsort(cluster_centers)` is a
stable ascending sort of indices, and the code takes its last entry
(lines 708-716), i.e. the index of the maximum centre, the later index
winning ties. -/
def brightest_cluster (cluster_centers : List ℚ) : ℕ :=
  (List.range cluster_centers.length).foldl
    (fun best i => if cluster_centers.getD best 0 ≤ cluster_centers.getD i 0
      then i else best) 0

/-- `segment_by_kmeans` (lines 670-742).  Here the import of
`sklearn.cluster.KMeans` sits INSIDE the `try:` block whose
`except Exception` prints the error and returns `(None, None, None)`, so a
missing library yields a non-fatal `none`.  The fitted model is opaque: the
external library supplies the per-voxel `labels` and the `cluster_centers`;
the mask/segmentation derived from them follows lines 715-725. -/
def segment_by_kmeans (sklearn_available : Bool) (labels : List ℕ)
    (cluster_centers : List ℚ) (array : List ℚ) :
    Except String (Option (List ℚ × List Bool)) :=
  if sklearn_available = false then
    .ok none
  else
    let brightest := brightest_cluster cluster_centers
    let mask := labels.map (fun lab => decide (lab = brightest))
    let background := listMin array
    let segmented := (array.zip labels).map
      (fun al => if al.2 = brightest then al.1 else background)
    .ok (some (segmented, mask))

theorem length_filterMap_id {α : Type} (l : List (Option α)) :
    (l.filterMap id).length = l.countP (fun r => r.isSome) := by
  induction l with
  | nil => simp
  | cons a t ih =>
    cases a <;> simp [List.filterMap_cons, List.countP_cons, ih]

/-- C1: after either slider callback returns, the committed state satisfies
lower ≤ upper; the committed (= displayed, the callback writes it back with
`SetValue`) value of the dragged slider is the raw value clamped to the
other slider's committed value, which itself is left unchanged. -/
theorem slider_callbacks_preserve_order (ui : ThresholdUI)
    (raw_lower raw_upper : ℚ) :
    (lower_threshold_callback ui raw_lower).lower_value ≤
        (lower_threshold_callback ui raw_lower).upper_value
    ∧ (lower_threshold_callback ui raw_lower).lower_value =
        min raw_lower ui.upper_value
    ∧ (lower_threshold_callback ui raw_lower).upper_value = ui.upper_value
    ∧ (upper_threshold_callback ui raw_upper).lower_value ≤
        (upper_threshold_callback ui raw_upper).upper_value
    ∧ (upper_threshold_callback ui raw_upper).upper_value =
        max raw_upper ui.lower_value
    ∧ (upper_threshold_callback ui raw_upper).lower_value = ui.lower_value := by
  refine ⟨?_, ?_, rfl, ?_, ?_, rfl⟩
  · simp only [lower_threshold_callback]
    split
    · exact le_rfl
    · linarith [not_lt.mp (by assumption : ¬raw_lower > ui.upper_value)]
  · simp only [lower_threshold_callback, min_def]
    split
    · rw [if_neg (not_le.mpr (by assumption))]
    · rw [if_pos (not_lt.mp (by assumption))]
  · simp only [upper_threshold_callback]
    split
    · exact le_rfl
    · linarith [not_lt.mp (by assumption : ¬raw_upper < ui.lower_value)]
  · simp only [upper_threshold_callback, max_def]
    split
    · rw [if_pos (le_of_lt (by assumption))]
    · have hle : ui.lower_value ≤ raw_upper := not_lt.mp (by assumption)
      by_cases heq : raw_upper ≤ ui.lower_value
      · rw [if_pos heq]
        exact le_antisymm heq hle
      · rw [if_neg heq]

/-- C2 (amended): for strictly ordered thresholds strictly inside the data
range (data_min < lower < upper < data_max), the binary-band opacity
transfer function evaluates to 0 at the data minimum, at lower-1, at
upper+1 and at the data maximum, to 0.7 exactly at lower and at upper, and
to 0.9 at the midpoint (lower+upper)/2.  (The original claim, which allowed
lower = upper, fails there: the collapsed midpoint node is overwritten to
0.7.) -/
theorem binary_band_opacity_profile (data_min data_max lower upper : ℚ)
    (h1 : data_min < lower) (h2 : lower < upper) (h3 : upper < data_max) :
    evalPiecewise
        (update_threshold_transfer_opacity data_min data_max lower upper)
        data_min = 0
    ∧ evalPiecewise
        (update_threshold_transfer_opacity data_min data_max lower upper)
        (lower - 1) = 0
    ∧ evalPiecewise
        (update_threshold_transfer_opacity data_min data_max lower upper)
        lower = 7/10
    ∧ evalPiecewise
        (update_threshold_transfer_opacity data_min data_max lower upper)
        ((lower + upper) / 2) = 9/10
    ∧ evalPiecewise
        (update_threshold_transfer_opacity data_min data_max lower upper)
        upper = 7/10
    ∧ evalPiecewise
        (update_threshold_transfer_opacity data_min data_max lower upper)
        (upper + 1) = 0
    ∧ evalPiecewise
        (update_threshold_transfer_opacity data_min data_max lower upper)
        data_max = 0 := by
  have hs : nodesSorted
      (update_threshold_transfer_opacity data_min data_max lower upper) := by
    unfold update_threshold_transfer_opacity
    exact addNodes_sorted _ List.Pairwise.nil
  refine ⟨?_, ?_, ?_, ?_, ?_, ?_, ?_⟩ <;>
    · apply evalPiecewise_at_node hs
      unfold update_threshold_transfer_opacity addNodes
      simp only [List.foldl_cons, List.foldl_nil, lookupNode_addNode,
        lookupNode]
      split_ifs <;> first | rfl | (exfalso; linarith)

/-- C2 counterexample: the degenerate pair lower = upper = 0 satisfies the
original claim's hypotheses (0 ≤ 0, inside [-1000, 1000]) but the opacity
at the midpoint (0+0)/2 is 0.7, not the claimed 0.9: the 0.9 midpoint node
was overwritten by the later AddPoint calls at the same intensity. -/
theorem binary_band_degenerate_midpoint :
    evalPiecewise (update_threshold_transfer_opacity (-1000) 1000 0 0)
        ((0 + 0) / 2) = 7/10
    ∧ (7/10 : ℚ) ≠ 9/10 := by
  constructor
  · norm_num [update_threshold_transfer_opacity, addNodes, addNode,
      evalPiecewise]
  · norm_num

/-- Witness for C2 at the spec scenario: data range [-1000, 1000],
lower = -600, upper = -100. -/
theorem binary_band_opacity_profile_witness :
    ((-1000 : ℚ) < -600 ∧ (-600 : ℚ) < -100 ∧ (-100 : ℚ) < 1000)
    ∧ (evalPiecewise
        (update_threshold_transfer_opacity (-1000) 1000 (-600) (-100))
        (-1000) = 0
    ∧ evalPiecewise
        (update_threshold_transfer_opacity (-1000) 1000 (-600) (-100))
        (-600 - 1) = 0
    ∧ evalPiecewise
        (update_threshold_transfer_opacity (-1000) 1000 (-600) (-100))
        (-600) = 7/10
    ∧ evalPiecewise
        (update_threshold_transfer_opacity (-1000) 1000 (-600) (-100))
        ((-600 + -100) / 2) = 9/10
    ∧ evalPiecewise
        (update_threshold_transfer_opacity (-1000) 1000 (-600) (-100))
        (-100) = 7/10
    ∧ evalPiecewise
        (update_threshold_transfer_opacity (-1000) 1000 (-600) (-100))
        (-100 + 1) = 0
    ∧ evalPiecewise
        (update_threshold_transfer_opacity (-1000) 1000 (-600) (-100))
        1000 = 0) :=
  ⟨⟨by norm_num, by norm_num, by norm_num⟩,
   binary_band_opacity_profile (-1000) 1000 (-600) (-100)
     (by norm_num) (by norm_num) (by norm_num)⟩

/-- C3 (amended): for all threshold pairs, the binary-band and tri-band
regenerations produce opacity and colour node lists with strictly
increasing intensities (the AddPoint replacement semantics guarantee it);
in the degenerate case lower = upper = l strictly inside the data range,
the band collapses to a single node at l that carries the value written
last for that intensity — opacity 0.7 and the band-edge colour (red for
the binary scheme, intense orange for the tri-band scheme) — not the
band's peak 0.9 / midpoint colour. -/
theorem transfer_control_points_strictly_increasing
    (data_min data_max lower upper l : ℚ)
    (hdl : data_min < l) (hld : l < data_max) :
    nodesSorted (update_threshold_transfer_opacity data_min data_max lower upper)
    ∧ nodesSorted (update_threshold_transfer_color data_min data_max lower upper)
    ∧ nodesSorted (update_multischeme_transfer_opacity data_min data_max lower upper)
    ∧ nodesSorted (update_multischeme_transfer_color data_min data_max lower upper)
    ∧ lookupNode (update_threshold_transfer_opacity data_min data_max l l) l =
        some (7/10)
    ∧ lookupNode (update_threshold_transfer_color data_min data_max l l) l =
        some (1, 0, 0)
    ∧ lookupNode (update_multischeme_transfer_opacity data_min data_max l l) l =
        some (7/10)
    ∧ lookupNode (update_multischeme_transfer_color data_min data_max l l) l =
        some (1, 5/10, 1/10) := by
  refine ⟨?_, ?_, ?_, ?_, ?_, ?_, ?_, ?_⟩
  · unfold update_threshold_transfer_opacity
    exact addNodes_sorted _ List.Pairwise.nil
  · unfold update_threshold_transfer_color
    exact addNodes_sorted _ List.Pairwise.nil
  · unfold update_multischeme_transfer_opacity
    exact addNodes_sorted _ List.Pairwise.nil
  · unfold update_multischeme_transfer_color
    exact addNodes_sorted _ List.Pairwise.nil
  · unfold update_threshold_transfer_opacity addNodes
    simp only [List.foldl_cons, List.foldl_nil, lookupNode_addNode, lookupNode]
    split_ifs <;> first | rfl | (exfalso; linarith)
  · unfold update_threshold_transfer_color addNodes
    simp only [List.foldl_cons, List.foldl_nil, lookupNode_addNode, lookupNode]
    split_ifs <;> first | rfl | (exfalso; linarith)
  · unfold update_multischeme_transfer_opacity addNodes
    simp only [List.foldl_cons, List.foldl_nil, lookupNode_addNode, lookupNode]
    split_ifs <;> first | rfl | (exfalso; linarith)
  · unfold update_multischeme_transfer_color addNodes
    simp only [List.foldl_cons, List.foldl_nil, lookupNode_addNode, lookupNode]
    split_ifs <;> first | rfl | (exfalso; linarith)

/-- C3 counterexample: with lower = upper = 0 in data range [-1000, 1000]
the binary band collapses to a single node at intensity 0, and that node
carries opacity 0.7 and colour red (1,0,0) — the values written last —
rather than the band's peak opacity 0.9 / peak colour green claimed for the
collapsed point. -/
theorem degenerate_band_carries_last_value :
    lookupNode (update_threshold_transfer_opacity (-1000) 1000 0 0) 0 =
        some (7/10)
    ∧ lookupNode (update_threshold_transfer_color (-1000) 1000 0 0) 0 =
        some (1, 0, 0)
    ∧ (7/10 : ℚ) ≠ 9/10 := by
  refine ⟨?_, ?_, by norm_num⟩
  · norm_num [update_threshold_transfer_opacity, addNodes, addNode, lookupNode]
  · norm_num [update_threshold_transfer_color, addNodes, addNode, lookupNode]

/-- Witness for C3 at data range [-1000, 1000], band [-600, -100],
degenerate point 0. -/
theorem transfer_control_points_strictly_increasing_witness :
    ((-1000 : ℚ) < 0 ∧ (0 : ℚ) < 1000)
    ∧ (nodesSorted (update_threshold_transfer_opacity (-1000) 1000 (-600) (-100))
    ∧ nodesSorted (update_threshold_transfer_color (-1000) 1000 (-600) (-100))
    ∧ nodesSorted (update_multischeme_transfer_opacity (-1000) 1000 (-600) (-100))
    ∧ nodesSorted (update_multischeme_transfer_color (-1000) 1000 (-600) (-100))
    ∧ lookupNode (update_threshold_transfer_opacity (-1000) 1000 0 0) 0 =
        some (7/10)
    ∧ lookupNode (update_threshold_transfer_color (-1000) 1000 0 0) 0 =
        some (1, 0, 0)
    ∧ lookupNode (update_multischeme_transfer_opacity (-1000) 1000 0 0) 0 =
        some (7/10)
    ∧ lookupNode (update_multischeme_transfer_color (-1000) 1000 0 0) 0 =
        some (1, 5/10, 1/10)) :=
  ⟨⟨by norm_num, by norm_num⟩,
   transfer_control_points_strictly_increasing (-1000) 1000 (-600) (-100) 0
     (by norm_num) (by norm_num)⟩

/-- C4: for lower ≤ upper the three region counts (strictly below, inclusive
band, strictly above) partition the voxel list, and the band predicate
accepts both endpoints. -/
theorem region_counts_partition (array : List ℚ) (lower upper : ℚ)
    (h : lower ≤ upper) :
    cold_region_count array lower + medical_region_count array lower upper +
        hot_region_count array upper = array.length
    ∧ medical_region_count [lower] lower upper = 1
    ∧ medical_region_count [upper] lower upper = 1 := by
  refine ⟨?_, ?_, ?_⟩
  · induction array with
    | nil => simp [cold_region_count, medical_region_count, hot_region_count]
    | cons a t ih =>
      simp only [cold_region_count, medical_region_count, hot_region_count,
        List.countP_cons, List.length_cons] at *
      by_cases h1 : a < lower
      · have h2 : ¬lower ≤ a := not_le.2 h1
        have h3 : ¬upper < a := not_lt.2 (le_of_lt (lt_of_lt_of_le h1 h))
        simp [h1, h2, h3]
        omega
      · by_cases h3 : upper < a
        · have h2 : ¬a ≤ upper := not_le.2 h3
          simp [h1, h2, h3]
          omega
        · have h2 : lower ≤ a := not_lt.1 h1
          have h4 : a ≤ upper := not_lt.1 h3
          simp [h1, h2, h3, h4]
          omega
  · simp [medical_region_count, List.countP_cons, h]
  · simp [medical_region_count, List.countP_cons, h]

theorem sorted_replicate_le (n : ℕ) (c : ℚ) :
    (List.replicate n c).Sorted (· ≤ ·) := by
  induction n with
  | zero => simp
  | succ m ih =>
    rw [List.replicate_succ]
    refine List.Pairwise.cons ?_ ih
    intro b hb
    rw [List.eq_of_mem_replicate hb]

theorem getD_replicate_of_lt {n i : ℕ} (c d : ℚ) (h : i < n) :
    (List.replicate n c).getD i d = c := by
  rw [List.getD_eq_getElem _ _ (by simpa using h)]
  simp

/-- On a constant (zero-variance) volume every percentile collapses to the
constant value. -/
theorem percentile_replicate (n : ℕ) (c p : ℚ) (hn : 0 < n)
    (hp0 : 0 ≤ p) (hp1 : p ≤ 100) :
    percentile (List.replicate n c) p = c := by
  simp only [percentile, (sorted_replicate_le n c).insertionSort_eq,
    List.length_replicate]
  rw [if_neg (Nat.pos_iff_ne_zero.mp hn)]
  have hn1 : (1 : ℚ) ≤ (n : ℚ) := by exact_mod_cast hn
  set pos : ℚ := p * ((n : ℚ) - 1) / 100 with hposdef
  have hpos0 : 0 ≤ pos := by
    apply div_nonneg _ (by norm_num)
    exact mul_nonneg hp0 (by linarith)
  have hposle : pos ≤ (n : ℚ) - 1 := by
    rw [hposdef, div_le_iff₀ (by norm_num : (0:ℚ) < 100)]
    nlinarith
  have hi : (⌊pos⌋).toNat < n := by
    have h1 : ⌊pos⌋ ≤ (n : ℤ) - 1 := by
      have h2 := Int.floor_le_floor hposle
      rwa [show ((n:ℚ) - 1) = (((n : ℤ) - 1 : ℤ) : ℚ) by push_cast; ring,
        Int.floor_intCast] at h2
    omega
  rw [getD_replicate_of_lt c 0 hi]
  rcases lt_or_ge ((⌊pos⌋).toNat + 1) n with h2 | h2
  · rw [getD_replicate_of_lt c c h2]; ring
  · rw [List.getD_eq_default _ _ (by simpa using h2)]; ring

theorem getD_mono_of_sorted {s : List ℚ} (hsorted : s.Sorted (· ≤ ·))
    {i j : ℕ} (hj : j < s.length) (hij : i ≤ j) :
    s.getD i 0 ≤ s.getD j 0 := by
  have hi : i < s.length := lt_of_le_of_lt hij hj
  rw [List.getD_eq_getElem _ _ hi, List.getD_eq_getElem _ _ hj]
  exact hsorted.rel_get_of_le hij

/-- Linear-interpolation percentiles are monotone in the percentile rank. -/
theorem percentile_mono (array : List ℚ) {p q : ℚ} (hp0 : 0 ≤ p)
    (hpq : p ≤ q) (hq : q ≤ 100) :
    percentile array p ≤ percentile array q := by
  simp only [percentile]
  set s := array.insertionSort (· ≤ ·) with hs
  have hsorted : s.Sorted (· ≤ ·) := List.sorted_insertionSort _ _
  by_cases h0 : s.length = 0
  · simp [h0]
  · rw [if_neg h0, if_neg h0]
    have hn : 1 ≤ s.length := Nat.one_le_iff_ne_zero.2 h0
    have hn1 : (1 : ℚ) ≤ (s.length : ℚ) := by exact_mod_cast hn
    set posp : ℚ := p * ((s.length : ℚ) - 1) / 100 with hposp
    set posq : ℚ := q * ((s.length : ℚ) - 1) / 100 with hposq
    have hq0 : 0 ≤ q := le_trans hp0 hpq
    have hple : posp ≤ posq :=
      div_le_div_of_nonneg_right
        (mul_le_mul_of_nonneg_right hpq (by linarith)) (by norm_num)
    have hposp0 : 0 ≤ posp :=
      div_nonneg (mul_nonneg hp0 (by linarith)) (by norm_num)
    have hposq0 : 0 ≤ posq := le_trans hposp0 hple
    have hposqle : posq ≤ (s.length : ℚ) - 1 := by
      rw [hposq, div_le_iff₀ (by norm_num : (0:ℚ) < 100)]
      nlinarith
    have hfq : ⌊posq⌋ ≤ (s.length : ℤ) - 1 := by
      have h2 := Int.floor_le_floor hposqle
      rwa [show ((s.length : ℚ) - 1) = (((s.length : ℤ) - 1 : ℤ) : ℚ) by
        push_cast; ring, Int.floor_intCast] at h2
    have hfp0 : 0 ≤ ⌊posp⌋ := Int.floor_nonneg.2 hposp0
    have hfq0 : 0 ≤ ⌊posq⌋ := Int.floor_nonneg.2 hposq0
    have hflpq : ⌊posp⌋ ≤ ⌊posq⌋ := Int.floor_le_floor hple
    have hiqn : (⌊posq⌋).toNat < s.length := by omega
    have hipq : (⌊posp⌋).toNat ≤ (⌊posq⌋).toNat := by omega
    have hipn : (⌊posp⌋).toNat < s.length := lt_of_le_of_lt hipq hiqn
    have hfracp0 : 0 ≤ posp - (⌊posp⌋ : ℚ) := sub_nonneg.2 (Int.floor_le posp)
    have hfracp1 : posp - (⌊posp⌋ : ℚ) ≤ 1 := by
      have := Int.lt_floor_add_one posp
      push_cast at this ⊢
      linarith
    have hfracq0 : 0 ≤ posq - (⌊posq⌋ : ℚ) := sub_nonneg.2 (Int.floor_le posq)
    have hlopq : s.getD (⌊posp⌋).toNat 0 ≤ s.getD (⌊posq⌋).toNat 0 :=
      getD_mono_of_sorted hsorted hiqn hipq
    have hhiq_ge : s.getD (⌊posq⌋).toNat 0 ≤
        s.getD ((⌊posq⌋).toNat + 1) (s.getD (⌊posq⌋).toNat 0) := by
      rcases lt_or_ge ((⌊posq⌋).toNat + 1) s.length with h2 | h2
      · rw [List.getD_eq_getElem _ _ h2, List.getD_eq_getElem _ _ hiqn]
        exact hsorted.rel_get_of_le (by simp)
      · rw [List.getD_eq_default _ _ h2]
    have hhip_ge : s.getD (⌊posp⌋).toNat 0 ≤
        s.getD ((⌊posp⌋).toNat + 1) (s.getD (⌊posp⌋).toNat 0) := by
      rcases lt_or_ge ((⌊posp⌋).toNat + 1) s.length with h2 | h2
      · rw [List.getD_eq_getElem _ _ h2, List.getD_eq_getElem _ _ hipn]
        exact hsorted.rel_get_of_le (by simp)
      · rw [List.getD_eq_default _ _ h2]
    rcases eq_or_lt_of_le hipq with heq | hlt
    · have hfeq : ⌊posp⌋ = ⌊posq⌋ := by omega
      rw [← heq, ← hfeq]
      have hdiff : posp - (⌊posp⌋ : ℚ) ≤ posq - (⌊posp⌋ : ℚ) := by linarith
      nlinarith [hhip_ge, hdiff, hfracp0]
    · have hstep : (⌊posp⌋).toNat + 1 ≤ (⌊posq⌋).toNat := hlt
      have h1 : s.getD (⌊posp⌋).toNat 0 +
          (posp - (⌊posp⌋ : ℚ)) *
            (s.getD ((⌊posp⌋).toNat + 1) (s.getD (⌊posp⌋).toNat 0) -
              s.getD (⌊posp⌋).toNat 0) ≤
          s.getD ((⌊posp⌋).toNat + 1) (s.getD (⌊posp⌋).toNat 0) := by
        nlinarith [hhip_ge, hfracp1, hfracp0]
      have h2 : s.getD ((⌊posp⌋).toNat + 1) (s.getD (⌊posp⌋).toNat 0) ≤
          s.getD (⌊posq⌋).toNat 0 := by
        have hip1n : (⌊posp⌋).toNat + 1 < s.length := lt_of_le_of_lt hstep hiqn
        have h3 := getD_mono_of_sorted hsorted hiqn hstep
        rwa [List.getD_eq_getElem _ _ hip1n, ←
          List.getD_eq_getElem s (s.getD (⌊posp⌋).toNat 0) hip1n] at h3
      have h3 : s.getD (⌊posq⌋).toNat 0 ≤
          s.getD (⌊posq⌋).toNat 0 +
            (posq - (⌊posq⌋ : ℚ)) *
              (s.getD ((⌊posq⌋).toNat + 1) (s.getD (⌊posq⌋).toNat 0) -
                s.getD (⌊posq⌋).toNat 0) := by
        nlinarith [hhiq_ge, hfracq0]
      linarith

/-- C5 (amended): `volume_rendering_threshold_interactive` performs no
zero-variance check: on a constant volume it does not fail, but proceeds
and sets both initial thresholds to the constant value (lower = upper),
then builds sliders and transfer functions over the collapsed range. -/
theorem threshold_init_ignores_zero_variance (n : ℕ) (c : ℚ) (h : 0 < n) :
    (volume_rendering_threshold_interactive
        (some (List.replicate n c))).toOption.map
      (fun ui => (ui.lower_value, ui.upper_value)) = some (c, c) := by
  simp only [volume_rendering_threshold_interactive, Except.toOption,
    Option.map]
  rw [percentile_replicate n c 30 h (by norm_num) (by norm_num),
    percentile_replicate n c 90 h (by norm_num) (by norm_num)]

/-- C5 counterexample: on the zero-variance volume with every voxel 42
(min = max = 42) initialization does not fail with any error: it returns a
state, with lower = upper = 42. -/
theorem threshold_init_degenerate_proceeds :
    (volume_rendering_threshold_interactive
        (some [42, 42, 42, 42])).toOption.map
      (fun ui => (ui.lower_value, ui.upper_value)) = some (42, 42)
    ∧ listMin [42, 42, 42, 42] = listMax [42, 42, 42, 42] := by
  constructor
  · have ht : Int.toNat 2 = 2 := rfl
    norm_num [volume_rendering_threshold_interactive, Except.toOption,
      percentile, List.insertionSort, List.orderedInsert, List.getD, ht]
  · norm_num [listMin, listMax]

/-- Witness for C5 (amended) at the constant volume of four voxels 42. -/
theorem threshold_init_ignores_zero_variance_witness :
    0 < 4
    ∧ (volume_rendering_threshold_interactive
        (some (List.replicate 4 (42 : ℚ)))).toOption.map
      (fun ui => (ui.lower_value, ui.upper_value)) = some (42, 42) :=
  ⟨by norm_num, threshold_init_ignores_zero_variance 4 42 (by norm_num)⟩

/-- C10 (amended): when `surface_rendering_double_threshold` is invoked
with lower ≥ upper it does not fail and discards both values for the 40th
and 80th percentiles of the volume; the substituted pair always satisfies
lower ≤ upper, but not necessarily lower < upper (they coincide e.g. on a
constant volume), and no re-check is performed. -/
theorem surface_double_threshold_fallback (array : List ℚ)
    (lower_threshold upper_threshold : ℚ)
    (h : lower_threshold ≥ upper_threshold) :
    surface_rendering_double_threshold array lower_threshold upper_threshold =
      (percentile array 40, percentile array 80)
    ∧ percentile array 40 ≤ percentile array 80 := by
  constructor
  · simp [surface_rendering_double_threshold, h]
  · exact percentile_mono array (by norm_num) (by norm_num) (by norm_num)

/-- C10 counterexample: on the constant volume [42, 42, 42] with the
inverted pair (5, 3) the fallback produces (42, 42), so rendering proceeds
with lower = upper, refuting the claim that it always proceeds with
lower < upper. -/
theorem surface_double_threshold_not_strict :
    surface_rendering_double_threshold [42, 42, 42] 5 3 = (42, 42)
    ∧ ¬((surface_rendering_double_threshold [42, 42, 42] 5 3).1 <
        (surface_rendering_double_threshold [42, 42, 42] 5 3).2) := by
  have h : surface_rendering_double_threshold [42, 42, 42] 5 3 = (42, 42) := by
    have ht0 : Int.toNat 0 = 0 := rfl
    have ht1 : Int.toNat 1 = 1 := rfl
    norm_num [surface_rendering_double_threshold, percentile,
      List.insertionSort, List.orderedInsert, List.getD, ht0, ht1]
  exact ⟨h, by rw [h]; norm_num⟩

/-- Witness for C10 (amended) at the constant volume [42, 42, 42] with the
inverted input pair (5, 3). -/
theorem surface_double_threshold_fallback_witness :
    (5 : ℚ) ≥ 3
    ∧ (surface_rendering_double_threshold [42, 42, 42] 5 3 =
        (percentile [42, 42, 42] 40, percentile [42, 42, 42] 80)
    ∧ percentile [42, 42, 42] 40 ≤ percentile [42, 42, 42] 80) :=
  ⟨by norm_num, surface_double_threshold_fallback [42, 42, 42] 5 3 (by norm_num)⟩

/-- C6: both interactive paths initialise the thresholds to data-dependent
percentiles of the flattened intensities: 30th/90th for the binary-band
path, 25th/75th for the tri-band multi-scheme path. -/
theorem initial_thresholds_are_percentiles (vol : List ℚ) :
    (volume_rendering_threshold_interactive (some vol)).toOption.map
        (fun ui => (ui.lower_value, ui.upper_value)) =
      some (percentile vol 30, percentile vol 90)
    ∧ (volume_rendering_multiple_schemes_interactive (some vol)).toOption.map
        (fun ui => (ui.lower_value, ui.upper_value)) =
      some (percentile vol 25, percentile vol 75) :=
  ⟨rfl, rfl⟩

/-- C7: threshold-transfer regeneration removes every previous control point
first, so its result is a function of (data_min, data_max, lower, upper)
only; applying it twice with the same arguments changes nothing. -/
theorem update_threshold_transfer_idempotent (s t : TransferState)
    (data_min data_max lower upper : ℚ) :
    update_threshold_transfer
        (update_threshold_transfer s data_min data_max lower upper)
        data_min data_max lower upper =
      update_threshold_transfer s data_min data_max lower upper
    ∧ update_threshold_transfer s data_min data_max lower upper =
      update_threshold_transfer t data_min data_max lower upper :=
  ⟨rfl, rfl⟩

/-- C8: with scikit-learn missing, `segment_by_kmeans` returns the non-fatal
`(None, None, None)` because its import sits inside the `try`; but with
scikit-image missing, `segment_by_otsu` raises `ImportError` out of the
method because its import sits BEFORE the `try`, contradicting its own
unreachable `except ImportError` handler. -/
theorem segmentation_unavailable_flow (threshold_otsu : List ℚ → ℚ)
    (labels : List ℕ) (centers array : List ℚ) :
    segment_by_otsu false threshold_otsu array =
      .error "ImportError: No module named skimage"
    ∧ segment_by_kmeans false labels centers array = .ok none :=
  ⟨rfl, rfl⟩

/-- C9: volume assembly never decodes the file at index 0 (the result does
not depend on it), the number of stacked slices equals the number of
successfully read files among indices 1..N-1, and hence is at most N-1. -/
theorem load_slices_skips_first {α : Type} (x y : Option α)
    (rest : List (Option α)) (vol : List α)
    (h : load_slices_manual (x :: rest) = .ok vol) :
    load_slices_manual (y :: rest) = .ok vol
    ∧ vol.length = rest.countP (fun r => r.isSome)
    ∧ vol.length ≤ (x :: rest).length - 1 := by
  have hsame : load_slices_manual (y :: rest) = load_slices_manual (x :: rest) := rfl
  refine ⟨hsame.trans h, ?_, ?_⟩
  · simp only [load_slices_manual, List.drop_one, List.tail_cons] at h
    split at h
    · exact absurd h (by simp)
    · obtain rfl : rest.filterMap id = vol := by
        simpa using h
      exact length_filterMap_id rest
  · simp only [load_slices_manual, List.drop_one, List.tail_cons] at h
    split at h
    · exact absurd h (by simp)
    · obtain rfl : rest.filterMap id = vol := by
        simpa using h
      simpa using List.length_filterMap_le id rest

/-- Witness for C4 at a three-voxel volume against the band [-600, -100]. -/
theorem region_counts_partition_witness :
    (-600 : ℚ) ≤ -100
    ∧ (cold_region_count [-700, -300, 500] (-600) +
        medical_region_count [-700, -300, 500] (-600) (-100) +
        hot_region_count [-700, -300, 500] (-100) =
          ([-700, -300, 500] : List ℚ).length
    ∧ medical_region_count [-600] (-600) (-100) = 1
    ∧ medical_region_count [-100] (-600) (-100) = 1) :=
  ⟨by norm_num,
   region_counts_partition [-700, -300, 500] (-600) (-100) (by norm_num)⟩

/-- Witness for C9 on four files where the first is readable but skipped and
the third fails to read. -/
theorem load_slices_skips_first_witness :
    load_slices_manual [some 7, some 1, none, some 2] = .ok [1, 2]
    ∧ (load_slices_manual [some 9, some 1, none, some 2] = .ok [1, 2]
    ∧ ([1, 2] : List ℕ).length =
        ([some 1, none, some 2] : List (Option ℕ)).countP (fun r => r.isSome)
    ∧ ([1, 2] : List ℕ).length ≤
        (((some 7 : Option ℕ)) :: [some 1, none, some 2]).length - 1) :=
  ⟨rfl,
   load_slices_skips_first (some 7) (some 9) [some 1, none, some 2] [1, 2]
     rfl⟩

end DICOM3D
